import Mathlib

/-!
Verification of the receive-descriptor logic of an STM32 Ethernet DMA driver
(`src/dma/rx/h_desc.rs`), as a shallow embedding in Lean 4.

Machine integers (`u32`) are embedded as `Nat`; the bitwise operations used by
the source (`&`, `|`, `^`, shifts) never overflow 32 bits when their inputs fit
in 32 bits, so no wrap-around modelling is needed except at the single pointer
cast `buffer_ptr as u32`, which is rendered as `% 2 ^ 32`.

Hardware fences and barriers (`atomic::fence`, `compiler_fence`,
`cortex_m::asm::dsb`) have no effect on the single-thread functional semantics
embedded here and are dropped; the `assert!` in `set_owned` is modelled by an
`Option` result (`none` = the program halts).
-/

/-- Bit-layout constants from the `consts` module of `h_desc.rs`. -/
def RXDESC_3_OWN : Nat := 1 <<< 31

/-- Interrupt On Completion. -/
def RXDESC_3_IOC : Nat := 1 <<< 30

/-- Buffer 2 Address Valid. -/
def RXDESC_3_BUF2V : Nat := 1 <<< 25

/-- Buffer 1 Address Valid. -/
def RXDESC_3_BUF1V : Nat := 1 <<< 24

/-- Context Descriptor. -/
def RXDESC_3_CTXT : Nat := 1 <<< 30

/-- First Descriptor. -/
def RXDESC_3_FD : Nat := 1 <<< 29

/-- Last Descriptor. -/
def RXDESC_3_LD : Nat := 1 <<< 28

/-- Receive Status RDES2 valid. -/
def RXDESC_3_RS2V : Nat := 1 <<< 27

/-- Receive status RDES1 valid. -/
def RXDESC_3_RS1V : Nat := 1 <<< 26

/-- Receive status RDES0 valid. -/
def RXDESC_3_RS0V : Nat := 1 <<< 26

/-- Error Summary. -/
def RXDESC_3_ES : Nat := 1 <<< 15

/-- Packet Length shift. -/
def RXDESC_3_PL_SHIFT : Nat := 0

/-- Packet Length mask. -/
def RXDESC_3_PL_MASK : Nat := 0x3FFF

/-- RX timestamp valid (local constant of `read_timestamp`, bit 7 of word 0). -/
def RXDESC_0_TIMESTAMP_VALID : Nat := 1 <<< 7

/-- The 32-bit complement used for `!RXDESC_3_BUF2V` on `u32`. -/
def RXDESC_3_BUF2V_NOT : Nat := 0xFFFFFFFF ^^^ RXDESC_3_BUF2V

/-- The four 32-bit words of a hardware DMA descriptor
(`RawDescriptor` from `dma/raw_descriptor.rs`, with the H-descriptor
word count of 4). -/
structure RawDescriptor where
  w0 : Nat
  w1 : Nat
  w2 : Nat
  w3 : Nat
deriving DecidableEq, Repr

/-- `RawDescriptor::new`: all words zeroed. -/
def RawDescriptor.new : RawDescriptor := ⟨0, 0, 0, 0⟩

/-- `RawDescriptor::read(word_index)`. -/
def RawDescriptor.read (d : RawDescriptor) (i : Nat) : Nat :=
  match i with
  | 0 => d.w0
  | 1 => d.w1
  | 2 => d.w2
  | _ => d.w3

/-- `RawDescriptor::modify(word_index, f)`: read-modify-write of one word. -/
def RawDescriptor.modify (d : RawDescriptor) (i : Nat) (f : Nat → Nat) :
    RawDescriptor :=
  match i with
  | 0 => { d with w0 := f d.w0 }
  | 1 => { d with w1 := f d.w1 }
  | 2 => { d with w2 := f d.w2 }
  | _ => { d with w3 := f d.w3 }

@[simp] theorem RawDescriptor.read_zero (a b c e : Nat) :
    (RawDescriptor.mk a b c e).read 0 = a := rfl

@[simp] theorem RawDescriptor.read_one (a b c e : Nat) :
    (RawDescriptor.mk a b c e).read 1 = b := rfl

@[simp] theorem RawDescriptor.read_two (a b c e : Nat) :
    (RawDescriptor.mk a b c e).read 2 = c := rfl

@[simp] theorem RawDescriptor.read_three (a b c e : Nat) :
    (RawDescriptor.mk a b c e).read 3 = e := rfl

@[simp] theorem RawDescriptor.modify_zero (a b c e : Nat) (f : Nat → Nat) :
    (RawDescriptor.mk a b c e).modify 0 f = ⟨f a, b, c, e⟩ := rfl

@[simp] theorem RawDescriptor.modify_three (a b c e : Nat) (f : Nat → Nat) :
    (RawDescriptor.mk a b c e).modify 3 f = ⟨a, b, c, f e⟩ := rfl

/-- An opaque caller-supplied tag correlating a frame with later timestamp
data (`PacketId` from the `dma` module; opaque, equality only). -/
structure PacketId where
  id : Nat
deriving DecidableEq, Repr

/-- Modelled from the spec: `Timestamp` (from the `ptp` module, not under
`src/`) is a hardware-clock sample, seconds plus sub-second fraction. -/
structure Timestamp where
  seconds : Nat
  subseconds : Nat
deriving DecidableEq, Repr

/-- Modelled from the spec: `Timestamp::from_descriptor` (from the `ptp`
module, not under `src/`) reads the hardware-clock sample out of the
write-back words of a raw descriptor. The spec gives it no failure
condition, so it always returns a sample. -/
def Timestamp.from_descriptor (d : RawDescriptor) : Option Timestamp :=
  some { seconds := d.read 1, subseconds := d.read 0 }

/-- `RxError` from the `dma` module: the receive error taxonomy. -/
inductive RxError where
  | WouldBlock
  | Truncated
deriving DecidableEq, Repr

/-- An RX DMA descriptor: the raw hardware words plus the software-only
metadata fields (`packet_id`; `cached_timestamp` under the `ptp` feature,
which is taken as enabled here). -/
structure RxDescriptor where
  inner_raw : RawDescriptor
  packet_id : Option PacketId
  cached_timestamp : Option Timestamp
deriving DecidableEq, Repr

/-- `RxDescriptor::new`. -/
def RxDescriptor.new : RxDescriptor :=
  { inner_raw := RawDescriptor.new
    packet_id := none
    cached_timestamp := none }

/-- `RxDescriptor::is_owned`: is the descriptor owned by the DMA engine? -/
def RxDescriptor.is_owned (d : RxDescriptor) : Bool :=
  (d.inner_raw.read 3 &&& RXDESC_3_OWN) == RXDESC_3_OWN

/-- `RxDescriptor::set_buffer`: write the buffer address into word 0
(the `as u32` pointer cast is `% 2 ^ 32`), then mark BUF2 invalid and
BUF1 valid in word 3. -/
def RxDescriptor.set_buffer (d : RxDescriptor) (buffer_ptr : Nat) :
    RxDescriptor :=
  let d1 :=
    { d with inner_raw := d.inner_raw.modify 0 (fun _ => buffer_ptr % 2 ^ 32) }
  { d1 with
    inner_raw := d1.inner_raw.modify 3 (fun w =>
      (w &&& RXDESC_3_BUF2V_NOT) ||| RXDESC_3_BUF1V) }

/-- `RxDescriptor::set_owned`: pass ownership to the DMA engine. Sets the
buffer, then sets OWN and IOC in a single read-modify-write of word 3, and
finally asserts that the ownership bit reads back; the fences and the `dsb`
are no-ops in this embedding, and the `assert!` is modelled by returning
`none` (the program halts) when the read-back fails. -/
def RxDescriptor.set_owned (d : RxDescriptor) (buffer_ptr : Nat) :
    Option RxDescriptor :=
  let d1 := d.set_buffer buffer_ptr
  let d2 :=
    { d1 with
      inner_raw := d1.inner_raw.modify 3 (fun w =>
        w ||| RXDESC_3_OWN ||| RXDESC_3_IOC) }
  if d2.is_owned then some d2 else none

/-- `RxDescriptor::setup(buffer)`: arm the descriptor with a buffer. -/
def RxDescriptor.setup (d : RxDescriptor) (buffer_ptr : Nat) :
    Option RxDescriptor :=
  d.set_owned buffer_ptr

/-- `RxDescriptor::has_error`. -/
def RxDescriptor.has_error (d : RxDescriptor) : Bool :=
  (d.inner_raw.read 3 &&& RXDESC_3_ES) == RXDESC_3_ES

/-- `RxDescriptor::is_first`. -/
def RxDescriptor.is_first (d : RxDescriptor) : Bool :=
  (d.inner_raw.read 3 &&& RXDESC_3_FD) == RXDESC_3_FD

/-- `RxDescriptor::is_last`. -/
def RxDescriptor.is_last (d : RxDescriptor) : Bool :=
  (d.inner_raw.read 3 &&& RXDESC_3_LD) == RXDESC_3_LD

/-- `RxDescriptor::is_context`. -/
def RxDescriptor.is_context (d : RxDescriptor) : Bool :=
  (d.inner_raw.read 3 &&& RXDESC_3_CTXT) == RXDESC_3_CTXT

/-- `RxDescriptor::read_timestamp`: the hardware timestamp, when valid. The
flag `stm32f1xx` selects the hardware variant: on STM32F1XX there is no
timestamp-valid indicator bit and validity is taken as true; elsewhere it is
bit 7 of word 0. -/
def RxDescriptor.read_timestamp (stm32f1xx : Bool) (d : RxDescriptor) :
    Option Timestamp :=
  let is_valid :=
    if stm32f1xx then
      true
    else
      (d.inner_raw.read 0 &&& RXDESC_0_TIMESTAMP_VALID) ==
        RXDESC_0_TIMESTAMP_VALID
  let timestamp := Timestamp.from_descriptor d.inner_raw
  if is_valid && d.is_last then timestamp else none

/-- `RxDescriptor::attach_timestamp`: cache the current timestamp reading. -/
def RxDescriptor.attach_timestamp (stm32f1xx : Bool) (d : RxDescriptor) :
    RxDescriptor :=
  { d with cached_timestamp := d.read_timestamp stm32f1xx }

/-- `RxDescriptor::take_received(packet_id, buffer)`: reclaim a descriptor
written back by hardware. Mutation of `self` is rendered by returning the
new descriptor next to the `Result`; the possible `assert!` halt inside the
re-arm path keeps the `Option` layer. -/
def RxDescriptor.take_received (stm32f1xx : Bool) (d : RxDescriptor)
    (packet_id : Option PacketId) (buffer_ptr : Nat) :
    Option (RxDescriptor × Except RxError Unit) :=
  if d.is_owned then
    some (d, Except.error RxError.WouldBlock)
  else if d.is_first && d.is_last && !d.has_error && !d.is_context then
    let d1 := { d with packet_id := packet_id }
    let d2 := d1.attach_timestamp stm32f1xx
    some (d2, Except.ok ())
  else
    (d.set_owned buffer_ptr).map (fun d2 => (d2, Except.error RxError.Truncated))

/-- `RxDescriptor::frame_length`. -/
def RxDescriptor.frame_length (d : RxDescriptor) : Nat :=
  if d.is_owned then
    0
  else
    (d.inner_raw.read 3 &&& RXDESC_3_PL_MASK) >>> RXDESC_3_PL_SHIFT

/-! ### Helper lemmas -/

/-- Any bit just OR-ed into a word reads back: masking with the OR-ed
constant returns that constant. -/
theorem Nat.or_or_and_self (x a b : Nat) : ((x ||| a) ||| b) &&& a = a := by
  apply Nat.eq_of_testBit_eq
  intro i
  simp only [Nat.testBit_land, Nat.testBit_lor]
  cases hx : Nat.testBit x i <;> cases ha : Nat.testBit a i <;> simp

/-- `set_owned` never hits its `assert!` halt: it always succeeds, and the
resulting descriptor is fully determined. -/
theorem RxDescriptor.set_owned_eq (d : RxDescriptor) (p : Nat) :
    d.set_owned p = some
      { inner_raw := ⟨p % 2 ^ 32, d.inner_raw.w1, d.inner_raw.w2,
          ((d.inner_raw.w3 &&& RXDESC_3_BUF2V_NOT) ||| RXDESC_3_BUF1V)
            ||| RXDESC_3_OWN ||| RXDESC_3_IOC⟩
        packet_id := d.packet_id
        cached_timestamp := d.cached_timestamp } := by
  rcases d with ⟨⟨w0, w1, w2, w3⟩, pid, ts⟩
  simp [RxDescriptor.set_owned, RxDescriptor.set_buffer, RxDescriptor.is_owned,
    Nat.or_or_and_self]

/-! ### Claim theorems -/

/-- Claim C1: if the ownership bit of a receive descriptor is set
(hardware-owned), `take_received` fails with `WouldBlock` and returns the
descriptor completely unchanged — no raw word and no software-only field is
modified — so repeated calls in that state keep returning `WouldBlock` with
no observable state change. -/
theorem take_received_would_block (stm32f1xx : Bool) (d : RxDescriptor)
    (pid : Option PacketId) (p : Nat) (h : d.is_owned = true) :
    d.take_received stm32f1xx pid p =
      some (d, Except.error RxError.WouldBlock) := by
  simp [RxDescriptor.take_received, h]

/-- Witness for C1 at a concrete hardware-owned descriptor. -/
theorem take_received_would_block_witness :
    (⟨⟨0, 0, 0, RXDESC_3_OWN⟩, none, none⟩ : RxDescriptor).take_received
        false none 0 =
      some (⟨⟨0, 0, 0, RXDESC_3_OWN⟩, none, none⟩,
        Except.error RxError.WouldBlock) :=
  take_received_would_block false _ none 0 (by decide)

/-- Claim C4: `frame_length` is 0 on a hardware-owned descriptor, and
otherwise the 14-bit packet-length field of status word 3 (mask `0x3FFF`,
shift 0). -/
theorem frame_length_spec (d : RxDescriptor) :
    d.frame_length =
      if d.is_owned then 0 else d.inner_raw.read 3 &&& 0x3FFF := by
  simp [RxDescriptor.frame_length, RXDESC_3_PL_MASK, RXDESC_3_PL_SHIFT]

/-- Claim C5: every hand-off to hardware goes through `set_owned`, whose
defensive assertion — the ownership bit must read back as hardware-owned
after the read-modify-write of word 3 — never fails in this embedding: the
`Option` layer models the `assert!` (a `none` would be the program halting
rather than a typed error), and `set_owned` always returns `some` with the
ownership bit set. -/
theorem set_owned_assert_never_fails (d : RxDescriptor) (p : Nat) :
    ∃ d2, d.set_owned p = some d2 ∧ d2.is_owned = true := by
  refine ⟨_, d.set_owned_eq p, ?_⟩
  simp [RxDescriptor.is_owned, Nat.or_or_and_self]

/-- Claim C9: the receive-status constants RS1V and RS0V alias the same bit
position, both being 1 shifted left by 26. -/
theorem rs1v_rs0v_alias :
    RXDESC_3_RS1V = RXDESC_3_RS0V ∧ RXDESC_3_RS1V = 1 <<< 26 :=
  ⟨rfl, rfl⟩

/-- Claim C2: on a software-owned descriptor whose status word shows
first-and-last segment, no error summary and not a context descriptor,
`take_received` succeeds, stores the caller-supplied packet identifier and
caches the hardware timestamp reading. -/
theorem take_received_ok_stores_metadata (stm32f1xx : Bool)
    (d : RxDescriptor) (pid : Option PacketId) (p : Nat)
    (h0 : d.is_owned = false) (h1 : d.is_first = true)
    (h2 : d.is_last = true) (h3 : d.has_error = false)
    (h4 : d.is_context = false) :
    ∃ d2, d.take_received stm32f1xx pid p = some (d2, Except.ok ()) ∧
      d2.packet_id = pid ∧
      d2.cached_timestamp = d.read_timestamp stm32f1xx := by
  rcases d with ⟨raw, pid0, ts0⟩
  refine ⟨⟨raw, pid,
    RxDescriptor.read_timestamp stm32f1xx ⟨raw, pid0, ts0⟩⟩, ?_, rfl, rfl⟩
  simp only [RxDescriptor.take_received, h0, h1, h2, h3, h4,
    RxDescriptor.attach_timestamp, Bool.not_false, Bool.and_self,
    Bool.and_true, Bool.false_eq_true, if_false, if_true, ite_true, ite_false,
    Bool.true_and]
  simp [RxDescriptor.read_timestamp, RxDescriptor.is_last]

/-- Witness for C2: a software-owned first-and-last, error-free,
non-context descriptor. -/
theorem take_received_ok_stores_metadata_witness :
    ∃ d2,
      RxDescriptor.take_received false
          ⟨⟨0x80, 0, 0, RXDESC_3_FD ||| RXDESC_3_LD⟩, none, none⟩
          (some ⟨7⟩) 0 = some (d2, Except.ok ()) ∧
      d2.packet_id = some ⟨7⟩ ∧
      d2.cached_timestamp =
        RxDescriptor.read_timestamp false
          ⟨⟨0x80, 0, 0, RXDESC_3_FD ||| RXDESC_3_LD⟩, none, none⟩ :=
  take_received_ok_stores_metadata false _ (some ⟨7⟩) 0
    (by decide) (by decide) (by decide) (by decide) (by decide)

/-- Claim C3: on a software-owned descriptor that is not a whole
single-buffer frame (not first-and-last, or error summary set, or a context
descriptor), `take_received` re-arms the descriptor with the fallback
buffer — its address is bound into word 0 and the ownership bit reads
hardware-owned immediately after the call — and fails with `Truncated`. -/
theorem take_received_truncated_rearms (stm32f1xx : Bool)
    (d : RxDescriptor) (pid : Option PacketId) (p : Nat)
    (h0 : d.is_owned = false)
    (h1 : (d.is_first && d.is_last && !d.has_error && !d.is_context)
      = false) :
    ∃ d2, d.take_received stm32f1xx pid p =
        some (d2, Except.error RxError.Truncated) ∧
      d2.is_owned = true ∧ d2.inner_raw.read 0 = p % 2 ^ 32 := by
  rcases d with ⟨⟨w0, w1, w2, w3⟩, pid0, ts0⟩
  refine ⟨⟨⟨p % 2 ^ 32, w1, w2,
    ((w3 &&& RXDESC_3_BUF2V_NOT) ||| RXDESC_3_BUF1V)
      ||| RXDESC_3_OWN ||| RXDESC_3_IOC⟩, pid0, ts0⟩, ?_, ?_, ?_⟩
  · simp [RxDescriptor.take_received, h0, h1, RxDescriptor.set_owned_eq]
  · simp [RxDescriptor.is_owned, Nat.or_or_and_self]
  · simp

/-- Witness for C3: a software-owned descriptor with the error-summary bit
set (and first-and-last set), re-armed at a concrete fallback address. -/
theorem take_received_truncated_rearms_witness :
    ∃ d2,
      RxDescriptor.take_received false
          ⟨⟨0, 0, 0, RXDESC_3_ES ||| RXDESC_3_FD ||| RXDESC_3_LD⟩,
            none, none⟩ none 0x20000000 =
        some (d2, Except.error RxError.Truncated) ∧
      d2.is_owned = true ∧ d2.inner_raw.read 0 = 0x20000000 % 2 ^ 32 :=
  take_received_truncated_rearms false _ none 0x20000000
    (by decide) (by decide)

/-- Claim C6: `setup` writes the buffer address into raw word 0, sets the
buffer-1-valid bit (bit 24) and clears the buffer-2-valid bit (bit 25) of
word 3, and then transfers ownership to hardware by OR-ing the ownership
bit (bit 31) together with the interrupt-on-completion bit (bit 30) into
word 3 in a single read-modify-write, whose result is spelled out below. -/
theorem setup_binds_buffer_and_hands_off (d : RxDescriptor) (p : Nat) :
    ∃ d2, d.setup p = some d2 ∧
      d2.inner_raw.read 0 = p % 2 ^ 32 ∧
      d2.inner_raw.read 3 =
        ((d.inner_raw.read 3 &&& RXDESC_3_BUF2V_NOT) ||| RXDESC_3_BUF1V)
          ||| RXDESC_3_OWN ||| RXDESC_3_IOC ∧
      (d2.inner_raw.read 3).testBit 24 = true ∧
      (d2.inner_raw.read 3).testBit 25 = false ∧
      (d2.inner_raw.read 3).testBit 31 = true ∧
      (d2.inner_raw.read 3).testBit 30 = true := by
  rcases d with ⟨⟨w0, w1, w2, w3⟩, pid0, ts0⟩
  have e24 : Nat.testBit RXDESC_3_BUF1V 24 = true := by decide
  have e25a : Nat.testBit RXDESC_3_BUF2V_NOT 25 = false := by decide
  have e25b : Nat.testBit RXDESC_3_BUF1V 25 = false := by decide
  have e25c : Nat.testBit RXDESC_3_OWN 25 = false := by decide
  have e25d : Nat.testBit RXDESC_3_IOC 25 = false := by decide
  have e31 : Nat.testBit RXDESC_3_OWN 31 = true := by decide
  have e30 : Nat.testBit RXDESC_3_IOC 30 = true := by decide
  refine ⟨⟨⟨p % 2 ^ 32, w1, w2,
    ((w3 &&& RXDESC_3_BUF2V_NOT) ||| RXDESC_3_BUF1V)
      ||| RXDESC_3_OWN ||| RXDESC_3_IOC⟩, pid0, ts0⟩,
    ?_, by simp, by simp, ?_, ?_, ?_, ?_⟩
  · simp [RxDescriptor.setup, RxDescriptor.set_owned_eq]
  · simp [Nat.testBit_lor, Nat.testBit_land, e24]
  · simp [Nat.testBit_lor, Nat.testBit_land, e25a, e25b, e25c, e25d]
  · simp [Nat.testBit_lor, Nat.testBit_land, e31]
  · simp [Nat.testBit_lor, Nat.testBit_land, e30]

/-- Inversion of the success branch of `take_received`: an `Ok` result can
only come from the first-and-last, error-free, non-context branch, which
keeps the raw words, stores the packet identifier and overwrites the cached
timestamp with the current reading. -/
theorem RxDescriptor.take_received_ok_inv (stm32f1xx : Bool)
    (d d2 : RxDescriptor) (pid : Option PacketId) (p : Nat)
    (h : d.take_received stm32f1xx pid p = some (d2, Except.ok ())) :
    d2.inner_raw = d.inner_raw ∧ d2.packet_id = pid ∧
      d2.cached_timestamp = d.read_timestamp stm32f1xx := by
  rcases d with ⟨raw, pid0, ts0⟩
  unfold RxDescriptor.take_received at h
  split at h
  · simp at h
  · split at h
    · simp only [RxDescriptor.attach_timestamp, Option.some.injEq,
        Prod.mk.injEq] at h
      rw [← h.1]
      refine ⟨rfl, rfl, ?_⟩
      simp [RxDescriptor.read_timestamp, RxDescriptor.is_last]
    · rw [RxDescriptor.set_owned_eq] at h
      simp at h

/-- Claim C7: after a successful `take_received`, the cached timestamp is
present if and only if the descriptor is marked last-segment and the
timestamp-valid indicator (bit 7 of word 0) is set — where the stm32f1xx
hardware variant has no valid bit and treats validity as always true.
Multi-segment, context and error descriptors never reach the caching step,
since on them `take_received` does not return `Ok`. -/
theorem take_received_ok_timestamp_validity (stm32f1xx : Bool)
    (d d2 : RxDescriptor) (pid : Option PacketId) (p : Nat)
    (h : d.take_received stm32f1xx pid p = some (d2, Except.ok ())) :
    d2.cached_timestamp.isSome =
      (d.is_last && (stm32f1xx ||
        ((d.inner_raw.read 0 &&& RXDESC_0_TIMESTAMP_VALID) ==
          RXDESC_0_TIMESTAMP_VALID))) := by
  obtain ⟨-, -, hts⟩ :=
    RxDescriptor.take_received_ok_inv stm32f1xx d d2 pid p h
  rw [hts]
  unfold RxDescriptor.read_timestamp Timestamp.from_descriptor
  cases stm32f1xx <;>
    cases hl : d.is_last <;>
      cases hb : (d.inner_raw.read 0 &&& RXDESC_0_TIMESTAMP_VALID) ==
          RXDESC_0_TIMESTAMP_VALID <;>
        simp [hl, hb]

/-- Witness for C7: a successful reclamation whose word 0 has bit 7 set,
on the variant with a timestamp-valid bit. -/
theorem take_received_ok_timestamp_validity_witness :
    (⟨⟨0x80, 0, 0, RXDESC_3_FD ||| RXDESC_3_LD⟩, none,
        some ⟨0, 0x80⟩⟩ : RxDescriptor).cached_timestamp.isSome =
      ((⟨⟨0x80, 0, 0, RXDESC_3_FD ||| RXDESC_3_LD⟩, none, none⟩ :
          RxDescriptor).is_last &&
        (false ||
          (((⟨⟨0x80, 0, 0, RXDESC_3_FD ||| RXDESC_3_LD⟩, none, none⟩ :
              RxDescriptor).inner_raw.read 0 &&&
            RXDESC_0_TIMESTAMP_VALID) == RXDESC_0_TIMESTAMP_VALID))) :=
  take_received_ok_timestamp_validity false _ _ none 0 (by rfl)

/-- Claim C10: whenever `take_received` returns `Ok`, none of the four raw
hardware words changes — only the software-only fields are written — so in
particular `frame_length` reads the same value after the call as before. -/
theorem take_received_ok_preserves_raw (stm32f1xx : Bool)
    (d d2 : RxDescriptor) (pid : Option PacketId) (p : Nat)
    (h : d.take_received stm32f1xx pid p = some (d2, Except.ok ())) :
    d2.inner_raw = d.inner_raw ∧ d2.frame_length = d.frame_length := by
  obtain ⟨hraw, -, -⟩ :=
    RxDescriptor.take_received_ok_inv stm32f1xx d d2 pid p h
  exact ⟨hraw,
    by simp [RxDescriptor.frame_length, RxDescriptor.is_owned, hraw]⟩

/-- Witness for C10: a concrete successful reclamation. -/
theorem take_received_ok_preserves_raw_witness :
    (⟨⟨0x80, 0, 0, RXDESC_3_FD ||| RXDESC_3_LD⟩, some ⟨3⟩,
        some ⟨0, 0x80⟩⟩ : RxDescriptor).inner_raw =
      (⟨⟨0x80, 0, 0, RXDESC_3_FD ||| RXDESC_3_LD⟩, none, none⟩ :
        RxDescriptor).inner_raw ∧
    (⟨⟨0x80, 0, 0, RXDESC_3_FD ||| RXDESC_3_LD⟩, some ⟨3⟩,
        some ⟨0, 0x80⟩⟩ : RxDescriptor).frame_length =
      (⟨⟨0x80, 0, 0, RXDESC_3_FD ||| RXDESC_3_LD⟩, none, none⟩ :
        RxDescriptor).frame_length :=
  take_received_ok_preserves_raw false _ _ (some ⟨3⟩) 0 (by rfl)

/-- Counterexample to claim C8: a software-owned error descriptor carrying
stale software-only metadata is handed back to hardware by the `Truncated`
re-arm of `take_received` with `packet_id` and `cached_timestamp` intact —
they are neither cleared nor overwritten before the ownership bit is set. -/
theorem software_fields_survive_rearm_cx :
    (RxDescriptor.take_received false
        ⟨⟨0, 0, 0, RXDESC_3_ES ||| RXDESC_3_FD ||| RXDESC_3_LD⟩,
          some ⟨5⟩, some ⟨1, 2⟩⟩ none 0x20000000).map
        (fun r => (r.1.packet_id, r.1.cached_timestamp, r.1.is_owned, r.2)) =
      some (some ⟨5⟩, some ⟨1, 2⟩, true,
        Except.error RxError.Truncated) := rfl

/-- Claim C8 as amended: the hand-back paths (`setup` and the `Truncated`
re-arm of `take_received`, both of which go through `set_owned`) leave the
software-only fields `packet_id` and `cached_timestamp` unchanged; they are
overwritten only by a successful `take_received`, not before a hand-back to
hardware. -/
theorem set_owned_preserves_software_fields (d : RxDescriptor) (p : Nat) :
    ∃ d2, d.set_owned p = some d2 ∧
      d2.packet_id = d.packet_id ∧
      d2.cached_timestamp = d.cached_timestamp :=
  ⟨_, d.set_owned_eq p, rfl, rfl⟩
